import Mathlib

/-!
Shallow embedding of the advisory core of the weather dashboard
(file src/weather.py): the advisory engine (Python function
get_clothing_advice) and the narration composer (Python function
generate_weather_speech).

Modelling choices:
- temperatures are rationals, humidity is an integer, texts are Lean strings;
- the Python lowercasing (str.lower) is modelled by mapping Char.toLower over
  the characters (all keywords involved are ASCII);
- the Python substring test (needle in hay) is modelled by an explicit
  character-list scan (strIn);
- the Python string formatting "{:.1f}" is modelled by fmt1, which rounds the
  value to the nearest tenth and prints one digit after the decimal point.
-/

/-- Character-level lowercasing, modelling the Python expression
condition.lower() used at line 190 of src/weather.py. -/
def lowerStr (s : String) : String := String.mk (s.data.map Char.toLower)

/-- Auxiliary scan: needle matches at the head of the haystack. -/
def startsWithL : List Char → List Char → Bool
  | [], _ => true
  | _ :: _, [] => false
  | c :: cs, d :: ds => c == d && startsWithL cs ds

/-- Auxiliary scan: needle matches somewhere in the haystack. -/
def hasSubL (needle : List Char) : List Char → Bool
  | [] => startsWithL needle []
  | d :: ds => startsWithL needle (d :: ds) || hasSubL needle ds

/-- Substring containment, modelling the Python test needle in hay. -/
def strIn (needle hay : String) : Bool := hasSubL needle.data hay.data

/- Advice strings of get_clothing_advice, lines 169 to 203 of src/weather.py. -/

def extremeColdLine : String :=
  "It\x27s extremely cold outside. Wear heavy winter coat, thermal layers, gloves, scarf, and winter hat."

def freezingLine : String :=
  "It\x27s freezing cold. Wear a heavy jacket, warm layers, gloves, and a hat."

def coldLine : String :=
  "It\x27s quite cold. Wear a warm jacket, long sleeves, and consider bringing a scarf."

def coolLine : String :=
  "It\x27s cool outside. A light jacket or sweater would be comfortable."

def mildLine : String :=
  "The weather is mild. A light sweater or long sleeves should be perfect."

def pleasantLine : String :=
  "It\x27s pleasant outside. Comfortable clothing like a t-shirt and light pants works well."

def warmLine : String :=
  "It\x27s warm. Wear light, breathable clothing like shorts and t-shirts."

def hotLine : String :=
  "It\x27s hot outside. Wear minimal, light-colored, breathable clothing and stay hydrated."

def extremeHeatLine : String :=
  "It\x27s extremely hot! Wear very light clothing, stay hydrated, and avoid prolonged sun exposure."

def rainAdviceLine : String :=
  "Don\x27t forget your umbrella and waterproof jacket!"

def snowAdviceLine : String :=
  "Wear waterproof boots and be careful of slippery surfaces."

def stormAdviceLine : String :=
  "There\x27s a storm warning. It\x27s safer to stay indoors if possible!"

def fogAdviceLine : String :=
  "Visibility is low. Drive carefully and wear visible clothing."

def humidityAdviceLine : String :=
  "High humidity today. Wear moisture-wicking fabrics to stay comfortable."

/-- Temperature block of get_clothing_advice (lines 168 to 187 of
src/weather.py): the selected advice line and the stay-indoor flag set by the
if and elif chain on temp. -/
def tempAdvice (temp : ℚ) : String × Bool :=
  if temp < -10 then (extremeColdLine, true)
  else if temp < 0 then (freezingLine, false)
  else if temp < 10 then (coldLine, false)
  else if temp < 15 then (coolLine, false)
  else if temp < 20 then (mildLine, false)
  else if temp < 25 then (pleasantLine, false)
  else if temp < 30 then (warmLine, false)
  else if temp < 35 then (hotLine, false)
  else (extremeHeatLine, true)

/-- Condition block of get_clothing_advice (lines 190 to 199 of
src/weather.py): the optional advice line chosen by the elif chain over the
lowercased description, and whether the storm branch (which forces the
stay-indoor flag) was taken. -/
def condAdvice (condition_lower : String) : Option String × Bool :=
  if strIn "rain" condition_lower || strIn "drizzle" condition_lower then
    (some rainAdviceLine, false)
  else if strIn "snow" condition_lower then (some snowAdviceLine, false)
  else if strIn "storm" condition_lower || strIn "thunder" condition_lower then
    (some stormAdviceLine, true)
  else if strIn "fog" condition_lower || strIn "mist" condition_lower then
    (some fogAdviceLine, false)
  else (none, false)

/-- Direct transcription of get_clothing_advice, lines 162 to 205 of
src/weather.py: the advice list is built up by appends exactly as the Python
code appends to its advice list, and the stay-indoor flag is threaded through
the three blocks in the same order. -/
def get_clothing_advice (temp : ℚ) (condition : String) (humidity : ℤ) :
    List String × Bool :=
  let advice : List String := []
  let stay_indoor : Bool := false
  match
    (if temp < -10 then (advice ++ [extremeColdLine], true)
     else if temp < 0 then (advice ++ [freezingLine], stay_indoor)
     else if temp < 10 then (advice ++ [coldLine], stay_indoor)
     else if temp < 15 then (advice ++ [coolLine], stay_indoor)
     else if temp < 20 then (advice ++ [mildLine], stay_indoor)
     else if temp < 25 then (advice ++ [pleasantLine], stay_indoor)
     else if temp < 30 then (advice ++ [warmLine], stay_indoor)
     else if temp < 35 then (advice ++ [hotLine], stay_indoor)
     else (advice ++ [extremeHeatLine], true)) with
  | (advice, stay_indoor) =>
  let condition_lower := lowerStr condition
  match
    (if strIn "rain" condition_lower || strIn "drizzle" condition_lower then
      (advice ++ [rainAdviceLine], stay_indoor)
     else if strIn "snow" condition_lower then
      (advice ++ [snowAdviceLine], stay_indoor)
     else if strIn "storm" condition_lower || strIn "thunder" condition_lower then
      (advice ++ [stormAdviceLine], true)
     else if strIn "fog" condition_lower || strIn "mist" condition_lower then
      (advice ++ [fogAdviceLine], stay_indoor)
     else (advice, stay_indoor)) with
  | (advice, stay_indoor) =>
  let advice := if humidity > 80 then advice ++ [humidityAdviceLine] else advice
  (advice, stay_indoor)

/-- Formatting of a rational to one decimal place, modelling the Python
f-string conversion "{:.1f}" used at lines 210 and 211 of src/weather.py:
the value is rounded to the nearest tenth (ties rounded up) and printed with
exactly one digit after the decimal point. -/
def fmt1 (q : ℚ) : String :=
  let n : ℤ := (20 * q.num + (q.den : ℤ)) / (2 * (q.den : ℤ))
  let sign : String := if n < 0 then "-" else ""
  let m : ℕ := n.natAbs
  sign ++ toString (m / 10) ++ "." ++ toString (m % 10)

/-- Warning sentence appended by generate_weather_speech when the stay-indoor
flag is set (line 215 of src/weather.py). -/
def warningSentence : String :=
  "Warning! Weather conditions are extreme. It is strongly advised to stay indoors. "

/-- Direct transcription of generate_weather_speech, lines 207 to 219 of
src/weather.py. -/
def generate_weather_speech (city : String) (temp feels_like : ℚ)
    (condition : String) (advice_list : List String) (stay_indoor : Bool) :
    String :=
  let speech_text := "Weather report for " ++ city ++ ". "
  let speech_text := speech_text ++
    ("The current temperature is " ++ fmt1 temp ++ " degrees Celsius, ")
  let speech_text := speech_text ++
    ("but it feels like " ++ fmt1 feels_like ++ " degrees. ")
  let speech_text := speech_text ++
    ("The weather condition is " ++ condition ++ ". ")
  let speech_text :=
    if stay_indoor then speech_text ++ warningSentence else speech_text
  speech_text ++ ("Here\x27s what you should wear. " ++
    String.intercalate " " advice_list)

/-- Index of the band selected by the temperature chain of
get_clothing_advice (first matching branch of the if and elif chain at lines
168 to 187 of src/weather.py). -/
def bandOf (t : ℚ) : ℕ :=
  if t < -10 then 0
  else if t < 0 then 1
  else if t < 10 then 2
  else if t < 15 then 3
  else if t < 20 then 4
  else if t < 25 then 5
  else if t < 30 then 6
  else if t < 35 then 7
  else 8

/-- The nine half-open temperature intervals as the specification tabulates
them (lower bound inclusive); this is the specification side of the banding
refinement, to be compared with the chain of the code (bandOf). -/
def bandMatch (i : ℕ) (t : ℚ) : Prop :=
  if i = 0 then t < -10
  else if i = 1 then -10 ≤ t ∧ t < 0
  else if i = 2 then 0 ≤ t ∧ t < 10
  else if i = 3 then 10 ≤ t ∧ t < 15
  else if i = 4 then 15 ≤ t ∧ t < 20
  else if i = 5 then 20 ≤ t ∧ t < 25
  else if i = 6 then 25 ≤ t ∧ t < 30
  else if i = 7 then 30 ≤ t ∧ t < 35
  else if i = 8 then 35 ≤ t
  else False

/-- Advice line of each temperature band, in band order. -/
def bandLine (i : ℕ) : String :=
  match i with
  | 0 => extremeColdLine
  | 1 => freezingLine
  | 2 => coldLine
  | 3 => coolLine
  | 4 => mildLine
  | 5 => pleasantLine
  | 6 => warmLine
  | 7 => hotLine
  | _ => extremeHeatLine

/-- Stay-indoor flag of each temperature band: only the extreme-cold band and
the extreme-heat band set it. -/
def bandStay (i : ℕ) : Bool := i == 0 || i == 8

/-- Test vector of the specification: evaluate(22, Clear, 50). -/
lemma spec_vector_pleasant :
    get_clothing_advice 22 "Clear" 50 = ([pleasantLine], false) := by decide

/-- Test vector of the specification: evaluate(-15, Heavy Snow, 90). -/
lemma spec_vector_extreme :
    get_clothing_advice (-15) "Heavy Snow" 90 =
      ([extremeColdLine, snowAdviceLine, humidityAdviceLine], true) := by decide

/-- Formatting check: an integral value prints with one decimal digit. -/
lemma fmt1_integral : fmt1 18 = "18.0" := by decide

/-- Decomposition of the transcription: the advice list is the temperature
line, then the optional condition line, then the optional humidity line, and
the final flag is the disjunction of the temperature flag and the storm
flag. -/
lemma gca_decomp (t : ℚ) (c : String) (h : ℤ) :
    get_clothing_advice t c h =
      ([(tempAdvice t).1] ++ (condAdvice (lowerStr c)).1.toList ++
        (if h > 80 then [humidityAdviceLine] else []),
       ((tempAdvice t).2 || (condAdvice (lowerStr c)).2)) := by
  have h1 : (if t < -10 then (([] : List String) ++ [extremeColdLine], true)
      else if t < 0 then ([] ++ [freezingLine], false)
      else if t < 10 then ([] ++ [coldLine], false)
      else if t < 15 then ([] ++ [coolLine], false)
      else if t < 20 then ([] ++ [mildLine], false)
      else if t < 25 then ([] ++ [pleasantLine], false)
      else if t < 30 then ([] ++ [warmLine], false)
      else if t < 35 then ([] ++ [hotLine], false)
      else ([] ++ [extremeHeatLine], true)) =
      ([(tempAdvice t).1], (tempAdvice t).2) := by
    unfold tempAdvice
    split_ifs <;> simp
  have h2 : ∀ (adv : List String) (st : Bool),
      (if strIn "rain" (lowerStr c) || strIn "drizzle" (lowerStr c) then
        (adv ++ [rainAdviceLine], st)
       else if strIn "snow" (lowerStr c) then (adv ++ [snowAdviceLine], st)
       else if strIn "storm" (lowerStr c) || strIn "thunder" (lowerStr c) then
        (adv ++ [stormAdviceLine], true)
       else if strIn "fog" (lowerStr c) || strIn "mist" (lowerStr c) then
        (adv ++ [fogAdviceLine], st)
       else (adv, st)) =
      (adv ++ (condAdvice (lowerStr c)).1.toList,
        st || (condAdvice (lowerStr c)).2) := by
    intro adv st
    unfold condAdvice
    split_ifs <;> simp
  simp only [get_clothing_advice]
  rw [h1]
  dsimp only
  rw [h2]
  dsimp only
  split_ifs <;> simp [List.append_assoc]

set_option maxHeartbeats 1000000 in
lemma tempAdvice_eq_band (t : ℚ) :
    tempAdvice t = (bandLine (bandOf t), bandStay (bandOf t)) := by
  unfold tempAdvice bandOf
  split_ifs <;> simp [bandLine, bandStay]

lemma bandOf_mem (t : ℚ) : bandMatch (bandOf t) t := by
  unfold bandOf
  split_ifs with h0 h1 h2 h3 h4 h5 h6 h7
  · exact h0
  · exact ⟨by linarith, h1⟩
  · exact ⟨by linarith, h2⟩
  · exact ⟨by linarith, h3⟩
  · exact ⟨by linarith, h4⟩
  · exact ⟨by linarith, h5⟩
  · exact ⟨by linarith, h6⟩
  · exact ⟨by linarith, h7⟩
  · exact show (35 : ℚ) ≤ t by linarith

lemma bandMatch_eq_bandOf (t : ℚ) (i : ℕ) (hi : bandMatch i t) : i = bandOf t := by
  obtain _ | _ | _ | _ | _ | _ | _ | _ | _ | i := i
  · have h : t < -10 := hi
    unfold bandOf
    split_ifs <;> first | rfl | (exfalso ; linarith)
  · obtain ⟨ha, hb⟩ : -10 ≤ t ∧ t < 0 := hi
    unfold bandOf
    split_ifs <;> first | rfl | (exfalso ; linarith)
  · obtain ⟨ha, hb⟩ : 0 ≤ t ∧ t < 10 := hi
    unfold bandOf
    split_ifs <;> first | rfl | (exfalso ; linarith)
  · obtain ⟨ha, hb⟩ : 10 ≤ t ∧ t < 15 := hi
    unfold bandOf
    split_ifs <;> first | rfl | (exfalso ; linarith)
  · obtain ⟨ha, hb⟩ : 15 ≤ t ∧ t < 20 := hi
    unfold bandOf
    split_ifs <;> first | rfl | (exfalso ; linarith)
  · obtain ⟨ha, hb⟩ : 20 ≤ t ∧ t < 25 := hi
    unfold bandOf
    split_ifs <;> first | rfl | (exfalso ; linarith)
  · obtain ⟨ha, hb⟩ : 25 ≤ t ∧ t < 30 := hi
    unfold bandOf
    split_ifs <;> first | rfl | (exfalso ; linarith)
  · obtain ⟨ha, hb⟩ : 30 ≤ t ∧ t < 35 := hi
    unfold bandOf
    split_ifs <;> first | rfl | (exfalso ; linarith)
  · have ha : (35 : ℚ) ≤ t := hi
    unfold bandOf
    split_ifs <;> first | rfl | (exfalso ; linarith)
  · exfalso
    unfold bandMatch at hi
    iterate 9 rw [if_neg (by omega)] at hi
    exact hi

lemma bandMatch_iff (t : ℚ) (i : ℕ) : bandMatch i t ↔ i = bandOf t :=
  ⟨fun hi => bandMatch_eq_bandOf t i hi, fun hh => hh ▸ bandOf_mem t⟩

lemma bool_eq_false {b : Bool} (h : ¬(b = true)) : b = false := by
  cases b
  · rfl
  · exact absurd rfl h

lemma tempAdvice_stay_iff (t : ℚ) :
    (tempAdvice t).2 = true ↔ (t < -10 ∨ 35 ≤ t) := by
  unfold tempAdvice
  split_ifs with h0 h1 h2 h3 h4 h5 h6 h7
  · exact iff_of_true rfl (Or.inl h0)
  · exact iff_of_false (by decide) (by push_neg ; exact ⟨by linarith, by linarith⟩)
  · exact iff_of_false (by decide) (by push_neg ; exact ⟨by linarith, by linarith⟩)
  · exact iff_of_false (by decide) (by push_neg ; exact ⟨by linarith, by linarith⟩)
  · exact iff_of_false (by decide) (by push_neg ; exact ⟨by linarith, by linarith⟩)
  · exact iff_of_false (by decide) (by push_neg ; exact ⟨by linarith, by linarith⟩)
  · exact iff_of_false (by decide) (by push_neg ; exact ⟨by linarith, by linarith⟩)
  · exact iff_of_false (by decide) (by push_neg ; exact ⟨by linarith, by linarith⟩)
  · exact iff_of_true rfl (Or.inr (by linarith))

lemma condAdvice_stay_iff (L : String) :
    (condAdvice L).2 = true ↔
      ((strIn "storm" L || strIn "thunder" L) = true
        ∧ (strIn "rain" L || strIn "drizzle" L) = false
        ∧ strIn "snow" L = false) := by
  unfold condAdvice
  split_ifs with h1 h2 h3 h4
  · refine iff_of_false (by decide) ?_
    rintro ⟨ha, hb, hc⟩
    rw [h1] at hb
    exact Bool.noConfusion hb
  · refine iff_of_false (by decide) ?_
    rintro ⟨ha, hb, hc⟩
    rw [h2] at hc
    exact Bool.noConfusion hc
  · exact iff_of_true rfl ⟨h3, bool_eq_false h1, bool_eq_false h2⟩
  · refine iff_of_false (by decide) ?_
    rintro ⟨ha, hb, hc⟩
    exact h3 ha
  · refine iff_of_false (by decide) ?_
    rintro ⟨ha, hb, hc⟩
    exact h3 ha

lemma tempAdvice_stay_line (t : ℚ) (hs : (tempAdvice t).2 = true) :
    (tempAdvice t).1 = extremeColdLine ∨ (tempAdvice t).1 = extremeHeatLine := by
  revert hs
  unfold tempAdvice
  split_ifs <;> simp

lemma condAdvice_stay_line (L : String) (hs : (condAdvice L).2 = true) :
    (condAdvice L).1 = some stormAdviceLine := by
  revert hs
  unfold condAdvice
  split_ifs <;> simp

lemma tempAdvice_line_cases (t : ℚ) :
    (tempAdvice t).1 = extremeColdLine ∨ (tempAdvice t).1 = freezingLine
    ∨ (tempAdvice t).1 = coldLine ∨ (tempAdvice t).1 = coolLine
    ∨ (tempAdvice t).1 = mildLine ∨ (tempAdvice t).1 = pleasantLine
    ∨ (tempAdvice t).1 = warmLine ∨ (tempAdvice t).1 = hotLine
    ∨ (tempAdvice t).1 = extremeHeatLine := by
  unfold tempAdvice
  split_ifs <;> simp

lemma condAdvice_line_cases (L : String) :
    (condAdvice L).1 = none ∨ (condAdvice L).1 = some rainAdviceLine
    ∨ (condAdvice L).1 = some snowAdviceLine
    ∨ (condAdvice L).1 = some stormAdviceLine
    ∨ (condAdvice L).1 = some fogAdviceLine := by
  unfold condAdvice
  split_ifs <;> simp

lemma tempLine_ne_storm (t : ℚ) : (tempAdvice t).1 ≠ stormAdviceLine := by
  rcases tempAdvice_line_cases t with h|h|h|h|h|h|h|h|h <;> rw [h] <;> decide

lemma tempLine_ne_humidity (t : ℚ) : (tempAdvice t).1 ≠ humidityAdviceLine := by
  rcases tempAdvice_line_cases t with h|h|h|h|h|h|h|h|h <;> rw [h] <;> decide

lemma condLine_ne_humidity (L : String) :
    (condAdvice L).1 ≠ some humidityAdviceLine := by
  rcases condAdvice_line_cases L with h|h|h|h|h <;> rw [h] <;> decide

/-- C1: for every rational temperature, exactly one of the nine temperature
bands matches (the intervals cover all values with no gaps or overlaps), the
matching band is exactly the one selected by the first-match chain of
get_clothing_advice (whose line opens the advice list), and each boundary
value in -10, 0, 10, 15, 20, 25, 30, 35 selects the band whose lower
inclusive bound it is; in particular t = -10 yields the freezing line with
stay-indoor false and t = 35 yields the extreme-heat line with stay-indoor
true. -/
theorem temperature_banding_total_exclusive_first_match :
    (∀ (t : ℚ) (i : ℕ), bandMatch i t ↔ i = bandOf t)
    ∧ (∀ t : ℚ, tempAdvice t = (bandLine (bandOf t), bandStay (bandOf t)))
    ∧ (∀ (t : ℚ) (c : String) (h : ℤ),
        (get_clothing_advice t c h).1.head? = some (bandLine (bandOf t)))
    ∧ bandOf (-10) = 1 ∧ bandOf 0 = 2 ∧ bandOf 10 = 3 ∧ bandOf 15 = 4
    ∧ bandOf 20 = 5 ∧ bandOf 25 = 6 ∧ bandOf 30 = 7 ∧ bandOf 35 = 8
    ∧ tempAdvice (-10) = (freezingLine, false)
    ∧ tempAdvice 35 = (extremeHeatLine, true) := by
  refine ⟨bandMatch_iff, tempAdvice_eq_band, ?_, by decide, by decide, by decide,
    by decide, by decide, by decide, by decide, by decide, by decide, by decide⟩
  intro t c h
  rw [gca_decomp, tempAdvice_eq_band]
  simp

/-- C2, counterexample: at temperature 20 with description containing the
word thunder (and humidity 50), the claimed characterization demands a true
stay-indoor flag, but get_clothing_advice returns false, because the rain
branch of the elif chain fires first and the storm branch is skipped. -/
theorem stay_indoor_iff_counterexample :
    strIn "thunder" (lowerStr "light rain during thunderstorm") = true
    ∧ ¬((20 : ℚ) < -10) ∧ ¬((35 : ℚ) ≤ 20)
    ∧ (get_clothing_advice 20 "light rain during thunderstorm" 50).2 = false := by
  decide

/-- C2, amended: the stay-indoor flag of get_clothing_advice is true exactly
when the temperature is below -10, or at least 35, or the lowercased
description contains storm or thunder while containing none of rain, drizzle
or snow (so the storm branch actually fires); humidity never affects it. -/
theorem stay_indoor_characterization (t : ℚ) (c : String) (h : ℤ) :
    (get_clothing_advice t c h).2 = true ↔
      (t < -10 ∨ 35 ≤ t ∨
        ((strIn "storm" (lowerStr c) || strIn "thunder" (lowerStr c)) = true
          ∧ (strIn "rain" (lowerStr c) || strIn "drizzle" (lowerStr c)) = false
          ∧ strIn "snow" (lowerStr c) = false)) := by
  rw [gca_decomp]
  constructor
  · intro hor
    rcases Bool.or_eq_true_iff.mp hor with hh | hh
    · rcases (tempAdvice_stay_iff t).mp hh with h1 | h1
      · exact Or.inl h1
      · exact Or.inr (Or.inl h1)
    · exact Or.inr (Or.inr ((condAdvice_stay_iff (lowerStr c)).mp hh))
  · rintro (h1 | h1 | h1)
    · exact Bool.or_eq_true_iff.mpr (Or.inl ((tempAdvice_stay_iff t).mpr (Or.inl h1)))
    · exact Bool.or_eq_true_iff.mpr (Or.inl ((tempAdvice_stay_iff t).mpr (Or.inr h1)))
    · exact Bool.or_eq_true_iff.mpr (Or.inr ((condAdvice_stay_iff (lowerStr c)).mpr h1))

/-- C3: condition matching is a case-insensitive substring search with fixed
precedence rain or drizzle, then snow, then storm or thunder, then fog or
mist; the first matching branch wins and at most one condition line is
emitted (condAdvice returns at most one optional line); in particular, for
every temperature and humidity, the description containing both rain and
thunderstorm emits the umbrella line and not the storm line. -/
theorem condition_precedence_first_match :
    (∀ L : String, (strIn "rain" L || strIn "drizzle" L) = true →
        condAdvice L = (some rainAdviceLine, false))
    ∧ (∀ L : String, (strIn "rain" L || strIn "drizzle" L) = false →
        strIn "snow" L = true → condAdvice L = (some snowAdviceLine, false))
    ∧ (∀ L : String, (strIn "rain" L || strIn "drizzle" L) = false →
        strIn "snow" L = false → (strIn "storm" L || strIn "thunder" L) = true →
        condAdvice L = (some stormAdviceLine, true))
    ∧ (∀ L : String, (strIn "rain" L || strIn "drizzle" L) = false →
        strIn "snow" L = false → (strIn "storm" L || strIn "thunder" L) = false →
        (strIn "fog" L || strIn "mist" L) = true →
        condAdvice L = (some fogAdviceLine, false))
    ∧ (∀ L : String, (strIn "rain" L || strIn "drizzle" L) = false →
        strIn "snow" L = false → (strIn "storm" L || strIn "thunder" L) = false →
        (strIn "fog" L || strIn "mist" L) = false → condAdvice L = (none, false))
    ∧ (∀ (t : ℚ) (h : ℤ),
        rainAdviceLine ∈ (get_clothing_advice t "light rain during thunderstorm" h).1
        ∧ stormAdviceLine ∉ (get_clothing_advice t "light rain during thunderstorm" h).1) := by
  refine ⟨?_, ?_, ?_, ?_, ?_, ?_⟩
  · intro L hL
    unfold condAdvice
    rw [if_pos hL]
  · intro L h1 h2
    unfold condAdvice
    rw [if_neg (by simp [h1]), if_pos h2]
  · intro L h1 h2 h3
    unfold condAdvice
    rw [if_neg (by simp [h1]), if_neg (by simp [h2]), if_pos h3]
  · intro L h1 h2 h3 h4
    unfold condAdvice
    rw [if_neg (by simp [h1]), if_neg (by simp [h2]), if_neg (by simp [h3]), if_pos h4]
  · intro L h1 h2 h3 h4
    unfold condAdvice
    rw [if_neg (by simp [h1]), if_neg (by simp [h2]), if_neg (by simp [h3]),
      if_neg (by simp [h4])]
  · have hc : condAdvice (lowerStr "light rain during thunderstorm") =
        (some rainAdviceLine, false) := by decide
    intro t h
    constructor
    · rw [gca_decomp, hc]
      simp
    · rw [gca_decomp, hc]
      intro hmem
      rcases List.mem_append.mp hmem with hm | hm
      · rcases List.mem_append.mp hm with hm2 | hm2
        · exact tempLine_ne_storm t (List.mem_singleton.mp hm2).symm
        · simp only [Option.toList_some] at hm2
          exact absurd (List.mem_singleton.mp hm2) (by decide)
      · by_cases hh : h > 80
        · rw [if_pos hh] at hm
          exact absurd (List.mem_singleton.mp hm) (by decide)
        · rw [if_neg hh] at hm
          exact absurd hm (List.not_mem_nil _)

/-- C3 witness: concrete instantiations discharging the hypotheses of each
precedence conjunct. -/
theorem condition_precedence_first_match_witness :
    condAdvice "rain" = (some rainAdviceLine, false)
    ∧ condAdvice "snow" = (some snowAdviceLine, false)
    ∧ condAdvice "thunder" = (some stormAdviceLine, true)
    ∧ condAdvice "mist" = (some fogAdviceLine, false)
    ∧ condAdvice "clear" = (none, false)
    ∧ rainAdviceLine ∈ (get_clothing_advice 20 "light rain during thunderstorm" 50).1
    ∧ stormAdviceLine ∉ (get_clothing_advice 20 "light rain during thunderstorm" 50).1 :=
  ⟨condition_precedence_first_match.1 "rain" (by decide),
   condition_precedence_first_match.2.1 "snow" (by decide) (by decide),
   condition_precedence_first_match.2.2.1 "thunder" (by decide) (by decide) (by decide),
   condition_precedence_first_match.2.2.2.1 "mist" (by decide) (by decide) (by decide)
     (by decide),
   condition_precedence_first_match.2.2.2.2.1 "clear" (by decide) (by decide) (by decide)
     (by decide),
   (condition_precedence_first_match.2.2.2.2.2 20 50).1,
   (condition_precedence_first_match.2.2.2.2.2 20 50).2⟩

/-- C4: the moisture-wicking humidity line is in the advice list exactly when
the humidity exceeds 80 (so humidity 80 emits no line and humidity 81 does),
and the humidity input never changes the stay-indoor flag. -/
theorem humidity_rule_boundary :
    (∀ (t : ℚ) (c : String) (h : ℤ),
        humidityAdviceLine ∈ (get_clothing_advice t c h).1 ↔ h > 80)
    ∧ (∀ (t : ℚ) (c : String) (h h2 : ℤ),
        (get_clothing_advice t c h).2 = (get_clothing_advice t c h2).2)
    ∧ humidityAdviceLine ∉ (get_clothing_advice 20 "" 80).1
    ∧ humidityAdviceLine ∈ (get_clothing_advice 20 "" 81).1 := by
  refine ⟨?_, ?_, by decide, by decide⟩
  · intro t c h
    by_cases hh : h > 80
    · rw [gca_decomp, if_pos hh]
      refine iff_of_true ?_ hh
      simp
    · rw [gca_decomp, if_neg hh]
      refine iff_of_false ?_ hh
      intro hmem
      rcases List.mem_append.mp hmem with hm | hm
      · rcases List.mem_append.mp hm with hm2 | hm2
        · exact tempLine_ne_humidity t (List.mem_singleton.mp hm2).symm
        · rcases condAdvice_line_cases (lowerStr c) with hq|hq|hq|hq|hq <;>
            rw [hq] at hm2 <;> simp at hm2 <;>
            exact absurd hm2 (by decide)
      · exact absurd hm (List.not_mem_nil _)
  · intro t c h h2
    rw [gca_decomp, gca_decomp]

/-- C5: the advice list of get_clothing_advice is exactly the temperature
line, then the optional condition line, then the optional humidity line (so
the order is fixed), and it always holds between 1 and 3 lines. -/
theorem advice_lines_count_and_order (t : ℚ) (c : String) (h : ℤ) :
    (get_clothing_advice t c h).1 =
      [(tempAdvice t).1] ++ (condAdvice (lowerStr c)).1.toList ++
        (if h > 80 then [humidityAdviceLine] else [])
    ∧ 1 ≤ (get_clothing_advice t c h).1.length
    ∧ (get_clothing_advice t c h).1.length ≤ 3 := by
  refine ⟨by rw [gca_decomp], ?_, ?_⟩
  · rw [gca_decomp]
    simp
  · rw [gca_decomp]
    have h1 : (condAdvice (lowerStr c)).1.toList.length ≤ 1 := by
      cases (condAdvice (lowerStr c)).1 <;> simp
    have h2 : (if h > 80 then [humidityAdviceLine] else []).length ≤ 1 := by
      split_ifs <;> simp
    simp only [List.length_append, List.length_singleton]
    omega

/-- C6: the stay-indoor flag is a monotone disjunction across the rule
blocks: the final flag equals the or of the temperature-band flag and the
condition-rule flag, and once either block sets it, the result is true (no
later rule, in particular the humidity rule, ever clears it). -/
theorem stay_indoor_monotone_or (t : ℚ) (c : String) (h : ℤ) :
    (get_clothing_advice t c h).2 = ((tempAdvice t).2 || (condAdvice (lowerStr c)).2)
    ∧ ((tempAdvice t).2 = true → (get_clothing_advice t c h).2 = true)
    ∧ ((condAdvice (lowerStr c)).2 = true → (get_clothing_advice t c h).2 = true) := by
  refine ⟨by rw [gca_decomp], ?_, ?_⟩
  · intro hh
    rw [gca_decomp]
    simp [hh]
  · intro hh
    rw [gca_decomp]
    simp [hh]

/-- C6 witness: at temperature -20 the temperature block sets the flag and
the result of get_clothing_advice keeps it true. -/
theorem stay_indoor_monotone_or_witness :
    (tempAdvice (-20 : ℚ)).2 = true ∧ (get_clothing_advice (-20) "" 0).2 = true :=
  ⟨by decide, (stay_indoor_monotone_or (-20) "" 0).2.1 (by decide)⟩

set_option maxRecDepth 8000 in
/-- C7: generate_weather_speech produces its sentences in the fixed order
city report, temperature and feels-like (each formatted to one decimal),
condition, optional warning, then the wear sentence followed by all advice
lines joined with single spaces in the order received; only the warning
sentence is conditional (present exactly when the stay-indoor flag is true);
in particular the Paris example yields no warning sentence and formats the
temperatures as 18.0 and 16.5. -/
theorem narration_fixed_sentence_order :
    (∀ (city : String) (tp fl : ℚ) (cond : String) (ad : List String) (st : Bool),
      generate_weather_speech city tp fl cond ad st =
        ("Weather report for " ++ city ++ ". ") ++
        ("The current temperature is " ++ fmt1 tp ++ " degrees Celsius, ") ++
        ("but it feels like " ++ fmt1 fl ++ " degrees. ") ++
        ("The weather condition is " ++ cond ++ ". ") ++
        (if st then warningSentence else "") ++
        ("Here\x27s what you should wear. " ++ String.intercalate " " ad))
    ∧ generate_weather_speech "Paris" 18.0 16.5 "light rain"
        ["...cool...", "umbrella..."] false =
      "Weather report for Paris. The current temperature is 18.0 degrees Celsius, but it feels like 16.5 degrees. The weather condition is light rain. Here\x27s what you should wear. ...cool... umbrella..." := by
  constructor
  · intro city tp fl cond ad st
    cases st <;> simp [generate_weather_speech, String.append_empty]
  · have h165 : fmt1 16.5 = "16.5" := by
      have hnum : (16.5 : ℚ).num = 33 := by norm_num
      have hden : (16.5 : ℚ).den = 2 := by norm_num
      simp only [fmt1, hnum, hden]
      decide
    have h18 : fmt1 (18.0 : ℚ) = "18.0" := by
      have hnum : (18.0 : ℚ).num = 18 := by norm_num
      have hden : (18.0 : ℚ).den = 1 := by norm_num
      simp only [fmt1, hnum, hden]
      decide
    simp only [generate_weather_speech, h165, h18]
    decide

/-- C8: get_clothing_advice is total over its declared domain: the advice
list is never empty for any rational temperature, any string and any integer
humidity, and evaluation is well defined on stress inputs such as the empty
string, unicode text, a temperature far outside the physical range and a
negative or huge humidity. -/
theorem evaluate_total_never_fails :
    (∀ (t : ℚ) (c : String) (h : ℤ), (get_clothing_advice t c h).1 ≠ [])
    ∧ get_clothing_advice 0 "" 0 = ([coldLine], false)
    ∧ get_clothing_advice 1000 "" (-50) = ([extremeHeatLine], true)
    ∧ get_clothing_advice (-100) "❄ Schneesturm ☃" 999 =
        ([extremeColdLine, humidityAdviceLine], true) := by
  refine ⟨?_, by decide, by decide, by decide⟩
  intro t c h
  rw [gca_decomp]
  simp

/-- C9: both core operations are deterministic: two calls with equal
arguments return equal (string-equal) results. -/
theorem evaluate_compose_deterministic :
    (∀ (t t2 : ℚ) (c c2 : String) (h h2 : ℤ), t = t2 → c = c2 → h = h2 →
        get_clothing_advice t c h = get_clothing_advice t2 c2 h2)
    ∧ (∀ (ci ci2 : String) (tp tp2 fl fl2 : ℚ) (cd cd2 : String)
        (ad ad2 : List String) (st st2 : Bool),
        ci = ci2 → tp = tp2 → fl = fl2 → cd = cd2 → ad = ad2 → st = st2 →
        generate_weather_speech ci tp fl cd ad st =
          generate_weather_speech ci2 tp2 fl2 cd2 ad2 st2) := by
  constructor
  · intro t t2 c c2 h h2 ht hc hh
    rw [ht, hc, hh]
  · intro ci ci2 tp tp2 fl fl2 cd cd2 ad ad2 st st2 h1 h2 h3 h4 h5 h6
    rw [h1, h2, h3, h4, h5, h6]

/-- C9 witness: the determinism statements applied at concrete inputs. -/
theorem evaluate_compose_deterministic_witness :
    get_clothing_advice 22 "Clear" 50 = get_clothing_advice 22 "Clear" 50
    ∧ generate_weather_speech "Paris" 18 18 "Clear" [] false =
        generate_weather_speech "Paris" 18 18 "Clear" [] false :=
  ⟨evaluate_compose_deterministic.1 22 22 "Clear" "Clear" 50 50 rfl rfl rfl,
   evaluate_compose_deterministic.2 "Paris" "Paris" 18 18 18 18 "Clear" "Clear"
     [] [] false false rfl rfl rfl rfl rfl rfl⟩

/-- C10: whenever get_clothing_advice raises the stay-indoor flag, the
advice list contains an explanatory line for it: the extreme-cold line or
the extreme-heat line as its first entry, or the storm warning line as its
second entry. -/
theorem stay_indoor_has_explanatory_line (t : ℚ) (c : String) (h : ℤ)
    (hs : (get_clothing_advice t c h).2 = true) :
    (get_clothing_advice t c h).1.head? = some extremeColdLine
    ∨ (get_clothing_advice t c h).1.head? = some extremeHeatLine
    ∨ (get_clothing_advice t c h).1[1]? = some stormAdviceLine := by
  rw [gca_decomp] at hs ⊢
  rcases Bool.or_eq_true_iff.mp hs with hh | hh
  · rcases tempAdvice_stay_line t hh with hl | hl
    · left
      simp [hl]
    · right
      left
      simp [hl]
  · right
    right
    rw [condAdvice_stay_line (lowerStr c) hh]
    simp

/-- C10 witness: at temperature -20 the flag is raised and the extreme-cold
line opens the advice list. -/
theorem stay_indoor_has_explanatory_line_witness :
    (get_clothing_advice (-20) "" 0).2 = true
    ∧ ((get_clothing_advice (-20) "" 0).1.head? = some extremeColdLine
      ∨ (get_clothing_advice (-20) "" 0).1.head? = some extremeHeatLine
      ∨ (get_clothing_advice (-20) "" 0).1[1]? = some stormAdviceLine) :=
  ⟨by decide, stay_indoor_has_explanatory_line (-20) "" 0 (by decide)⟩
